import Mathlib

/-!
Verification of the livestock registry's Ownership & Status Transition Engine.

The definitions below are a shallow embedding of the application store in
`src/Desktop/New VAT/services/types.ts` (the `StoreProvider` component):
each React state setter becomes a field update on an explicit `AppState`
record, and the nondeterministic environment values the code reads
(`Date.now()`-derived identifiers and `new Date().toISOString()` timestamps)
are passed in as explicit string parameters.  JavaScript numbers used for
weights are modelled as `Int`; optional fields become `Option`.
-/

namespace VAT

/-- `AnimalStatus` enum from `types.ts`. -/
inductive AnimalStatus where
  | ACTIVE
  | SOLD
  | SLAUGHTERED
  | DEAD
  | STOLEN
  | PENDING_TRANSFER
deriving DecidableEq, Repr

/-- `UserRole` enum from `types.ts`. -/
inductive UserRole where
  | FARMER
  | BUTCHERY
  | AUTHORITY
  | MARKET_AGENT
deriving DecidableEq, Repr

/-- Alert `type` field: `'STOLEN' | 'RED_ZONE'`. -/
inductive AlertType where
  | STOLEN
  | RED_ZONE
deriving DecidableEq, Repr

/-- TransferRecord `type` field: `'SALE' | 'INHERITANCE' | 'BUTCHERY_TRANSFER'`. -/
inductive TransferType where
  | SALE
  | INHERITANCE
  | BUTCHERY_TRANSFER
deriving DecidableEq, Repr

/-- TransferRequest `status` field: `'PENDING' | 'ACCEPTED' | 'REJECTED'`. -/
inductive RequestStatus where
  | PENDING
  | ACCEPTED
  | REJECTED
deriving DecidableEq, Repr

/-- The `location` object nested in `User`. -/
structure Location where
  county : String
  district : String
  division : String
  locationName : String
  sublocation : String
  village : String
deriving DecidableEq, Repr

/-- `User` interface from `types.ts`. -/
structure User where
  id : String
  name : String
  phoneNumber : String
  password : Option String
  role : UserRole
  location : Location
  registrationNumber : String
deriving DecidableEq, Repr

/-- `TransferRecord` interface from `types.ts`; `weight` is optional. -/
structure TransferRecord where
  date : String
  fromUserId : String
  toUserId : String
  type : TransferType
  weight : Option Int
deriving DecidableEq, Repr

/-- The multi-photo object used by the current animal shape
(`photos: { front, left, right }` as in `MOCK_ANIMALS`). -/
structure Photos where
  front : String
  left : String
  right : String
deriving DecidableEq, Repr

/-- `Animal` record.  The declared interface carries a `photoUrl : string`
while the runtime records created by the application carry a `photos`
object instead; both fields are modelled as optional so that the legacy
(single `photoUrl`) and the current (multi-photo) shapes are the same Lean
type, as they are in the untyped JSON the loader consumes. -/
structure Animal where
  id : String
  serialNumber : String
  species : String
  ownerId : String
  status : AnimalStatus
  description : String
  photoUrl : Option String
  photos : Option Photos
  biometricHash : Option String
  registeredDate : String
  transferHistory : List TransferRecord
deriving DecidableEq, Repr

/-- `Alert` record as actually constructed by the store: the object
literals carry a `targetCounty` scope field in addition to the declared
interface fields. -/
structure Alert where
  id : String
  type : AlertType
  animalId : String
  details : String
  targetCounty : String
  timestamp : String
  resolved : Bool
deriving DecidableEq, Repr

/-- `ButcheryRecord` interface from `types.ts`. -/
structure ButcheryRecord where
  id : String
  animalId : String
  butcheryId : String
  liveWeight : Int
  deadWeight : Int
  meatSold : Int
  date : String
deriving DecidableEq, Repr

/-- `TransferRequest` record as constructed by `initiateTransfer`. -/
structure TransferRequest where
  id : String
  animalId : String
  fromUserId : String
  toUserId : String
  status : RequestStatus
  timestamp : String
deriving DecidableEq, Repr

/-- The React state held by `StoreProvider`. -/
structure AppState where
  currentUser : Option User
  users : List User
  animals : List Animal
  alerts : List Alert
  transferRequests : List TransferRequest
  butcheryRecords : List ButcheryRecord
deriving DecidableEq, Repr

/-- `registerAnimal`: appends the new animal to the collection. -/
def registerAnimal (newAnimal : Animal) (s : AppState) : AppState :=
  { s with animals := s.animals ++ [newAnimal] }

/-- `reportStolen`: unconditionally sets the status of every animal with
the given id to STOLEN; if the animal is found in the (pre-update)
collection and a user is logged in, prepends a STOLEN alert scoped to the
reporter's county.  `alertId` models `Date.now().toString()` and `now`
models `new Date().toISOString()`. -/
def reportStolen (animalId alertId now : String) (s : AppState) : AppState :=
  let animals' := s.animals.map fun a =>
    if a.id == animalId then { a with status := AnimalStatus.STOLEN } else a
  match s.animals.find? (fun a => a.id == animalId), s.currentUser with
  | some animal, some cu =>
      let newAlert : Alert :=
        { id := alertId
          type := AlertType.STOLEN
          animalId := animalId
          details := "STOLEN: " ++ animal.species ++ " (" ++ animal.serialNumber
            ++ ") from " ++ cu.location.village
          targetCounty := cu.location.county
          timestamp := now
          resolved := false }
      { s with animals := animals', alerts := newAlert :: s.alerts }
  | _, _ => { s with animals := animals' }

/-- `recoverAnimal`: unconditionally returns every animal with the given
id to ACTIVE and marks every STOLEN alert for that animal resolved. -/
def recoverAnimal (animalId : String) (s : AppState) : AppState :=
  { s with
    animals := s.animals.map fun a =>
      if a.id == animalId then { a with status := AnimalStatus.ACTIVE } else a
    alerts := s.alerts.map fun al =>
      if al.animalId == animalId && al.type == AlertType.STOLEN then
        { al with resolved := true }
      else al }

/-- `markDead`: unconditionally sets the status to DEAD. -/
def markDead (animalId : String) (s : AppState) : AppState :=
  { s with animals := s.animals.map fun a =>
      if a.id == animalId then { a with status := AnimalStatus.DEAD } else a }

/-- `homeSlaughter`: unconditionally sets the status to SLAUGHTERED. -/
def homeSlaughter (animalId : String) (s : AppState) : AppState :=
  { s with animals := s.animals.map fun a =>
      if a.id == animalId then { a with status := AnimalStatus.SLAUGHTERED } else a }

/-- `initiateTransfer`: no-op when no user is logged in; otherwise appends
a PENDING TransferRequest (id `tr-${Date.now()}` modelled by `reqId`) and
sets the animal's status to PENDING_TRANSFER. -/
def initiateTransfer (animalId toUserId reqId now : String) (s : AppState) : AppState :=
  match s.currentUser with
  | none => s
  | some cu =>
      let newRequest : TransferRequest :=
        { id := reqId
          animalId := animalId
          fromUserId := cu.id
          toUserId := toUserId
          status := RequestStatus.PENDING
          timestamp := now }
      { s with
        transferRequests := s.transferRequests ++ [newRequest]
        animals := s.animals.map fun a =>
          if a.id == animalId then { a with status := AnimalStatus.PENDING_TRANSFER } else a }

/-- `acceptTransfer`: looks the request up by id (no check of its status);
if found, reassigns the animal to `request.toUserId`, sets status SOLD,
appends a SALE TransferRecord, and marks every request with that id
ACCEPTED. -/
def acceptTransfer (requestId now : String) (s : AppState) : AppState :=
  match s.transferRequests.find? (fun r => r.id == requestId) with
  | none => s
  | some request =>
      { s with
        animals := s.animals.map fun a =>
          if a.id == request.animalId then
            { a with
              ownerId := request.toUserId
              status := AnimalStatus.SOLD
              transferHistory := a.transferHistory ++
                [{ date := now
                   fromUserId := request.fromUserId
                   toUserId := request.toUserId
                   type := TransferType.SALE
                   weight := none }] }
          else a
        transferRequests := s.transferRequests.map fun r =>
          if r.id == requestId then { r with status := RequestStatus.ACCEPTED } else r }

/-- `rejectTransfer`: looks the request up by id (no check of its status);
if found, reverts the animal's status to ACTIVE (ownership untouched) and
marks every request with that id REJECTED. -/
def rejectTransfer (requestId : String) (s : AppState) : AppState :=
  match s.transferRequests.find? (fun r => r.id == requestId) with
  | none => s
  | some request =>
      { s with
        animals := s.animals.map fun a =>
          if a.id == request.animalId then { a with status := AnimalStatus.ACTIVE } else a
        transferRequests := s.transferRequests.map fun r =>
          if r.id == requestId then { r with status := RequestStatus.REJECTED } else r }

/-- `transferToButchery`: reassigns the animal to `toButcheryId` and
appends a BUTCHERY_TRANSFER record carrying the weight; status untouched. -/
def transferToButchery (animalId fromButcheryId toButcheryId : String)
    (weight : Int) (now : String) (s : AppState) : AppState :=
  { s with animals := s.animals.map fun a =>
      if a.id == animalId then
        { a with
          ownerId := toButcheryId
          transferHistory := a.transferHistory ++
            [{ date := now
               fromUserId := fromButcheryId
               toUserId := toButcheryId
               type := TransferType.BUTCHERY_TRANSFER
               weight := some weight }] }
      else a }

/-- The detail message of the fraud alert built by `logSlaughter`. -/
def fraudDetails (record : ButcheryRecord) : String :=
  "FRAUD: Butchery " ++ record.butcheryId ++ " sold " ++ toString record.meatSold
    ++ "kg (Dead Weight: " ++ toString record.deadWeight ++ "kg)"

/-- `logSlaughter`: appends the butchery record, sets the referenced
animal's status to SLAUGHTERED, and — exactly when `meatSold > deadWeight`
— prepends one RED_ZONE alert scoped to `"ALL"`. -/
def logSlaughter (record : ButcheryRecord) (alertId now : String) (s : AppState) : AppState :=
  let s1 := { s with
    butcheryRecords := s.butcheryRecords ++ [record]
    animals := s.animals.map fun a =>
      if a.id == record.animalId then { a with status := AnimalStatus.SLAUGHTERED } else a }
  if record.meatSold > record.deadWeight then
    { s1 with alerts :=
        { id := alertId
          type := AlertType.RED_ZONE
          animalId := record.animalId
          details := fraudDetails record
          targetCounty := "ALL"
          timestamp := now
          resolved := false } :: s1.alerts }
  else s1

/-- `findAnimalByHash`: first animal whose biometric hash equals the query
or whose id is the hard-coded demo id `'a1'`. -/
def findAnimalByHash (hash : String) (s : AppState) : Option Animal :=
  s.animals.find? fun a => a.biometricHash == some hash || a.id == "a1"

/-- The placeholder image URL used by the loader's migration branch. -/
def placeholderUrl : String := "https://picsum.photos/200"

/-- The per-record migration inside `loadState` for the `animals` key: a
record with no `photos` object gains one whose `left` slot is
`photoUrl || placeholder` (JavaScript `||`: the placeholder is used when
`photoUrl` is absent or the empty string) and loses its `photoUrl`;
records that already carry `photos` pass through unchanged. -/
def migrateAnimal (a : Animal) : Animal :=
  match a.photos with
  | some _ => a
  | none =>
      { a with
        photos := some
          { left := match a.photoUrl with
                    | some u => if u == "" then placeholderUrl else u
                    | none => placeholderUrl
            right := placeholderUrl
            front := placeholderUrl }
        photoUrl := none }

/-- The `key = 'animals'` branch of `loadState`: the parsed array is
migrated element-wise (parsing and local storage access are external). -/
def loadAnimals (parsed : List Animal) : List Animal :=
  parsed.map migrateAnimal

/-! ### Concrete fixtures (mirroring the mock data shipped with the store) -/

/-- A concrete animal record in the shape of `MOCK_ANIMALS`. -/
def baseAnimal : Animal :=
  { id := "a1"
    serialNumber := "COW-2023-001"
    species := "Cattle"
    ownerId := "u1"
    status := AnimalStatus.ACTIVE
    description := "Black and white Holstein"
    photoUrl := none
    photos := none
    biometricHash := some "BIO-MOCK-1"
    registeredDate := "2023-01-15"
    transferHistory := [] }

/-- A concrete user record in the shape of `MOCK_USERS`. -/
def baseUser : User :=
  { id := "u1"
    name := "John Doe"
    phoneNumber := "0712345678"
    password := some "123"
    role := UserRole.FARMER
    location :=
      { county := "Nairobi", district := "Langata", division := "Karen"
        locationName := "Karen", sublocation := "Karen Plains", village := "Miotoni" }
    registrationNumber := "USR-001" }

/-- A concrete app state with one logged-in user and one ACTIVE animal. -/
def baseState : AppState :=
  { currentUser := some baseUser
    users := [baseUser]
    animals := [baseAnimal]
    alerts := []
    transferRequests := []
    butcheryRecords := [] }

/-- A concrete animal whose status is DEAD (not ACTIVE, not STOLEN). -/
def deadAnimal : Animal :=
  { baseAnimal with id := "a2", serialNumber := "COW-2023-002", status := AnimalStatus.DEAD }

/-- A concrete app state holding only the DEAD animal. -/
def deadState : AppState := { baseState with animals := [deadAnimal] }

/-- `baseState` with nobody logged in. -/
def noUserState : AppState := { baseState with currentUser := none }

/-- A concrete pre-existing STOLEN alert about a different animal. -/
def otherAlert : Alert :=
  { id := "al0"
    type := AlertType.STOLEN
    animalId := "zz"
    details := "STOLEN: Goat (GT-1) from Elsewhere"
    targetCounty := "Kiambu"
    timestamp := "t0"
    resolved := false }

/-- `baseState` carrying one pre-existing alert for another animal. -/
def withAlertState : AppState := { baseState with alerts := [otherAlert] }

/-- The SALE record appended by `acceptTransfer` for a given request. -/
def saleRecord (request : TransferRequest) (now : String) : TransferRecord :=
  { date := now
    fromUserId := request.fromUserId
    toUserId := request.toUserId
    type := TransferType.SALE
    weight := none }

/-- One constructor per Transition Engine operation. -/
inductive EngineOp where
  | register (newAnimal : Animal)
  | stolen (animalId alertId now : String)
  | recover (animalId : String)
  | dead (animalId : String)
  | slaughterAtHome (animalId : String)
  | initiate (animalId toUserId reqId now : String)
  | accept (requestId now : String)
  | reject (requestId : String)
  | toButchery (animalId fromButcheryId toButcheryId : String) (weight : Int) (now : String)
  | slaughterAtButchery (record : ButcheryRecord) (alertId now : String)

/-- Dispatch of an `EngineOp` to the corresponding store operation. -/
def applyOp : EngineOp → AppState → AppState
  | EngineOp.register a, s => registerAnimal a s
  | EngineOp.stolen animalId alertId now, s => reportStolen animalId alertId now s
  | EngineOp.recover animalId, s => recoverAnimal animalId s
  | EngineOp.dead animalId, s => markDead animalId s
  | EngineOp.slaughterAtHome animalId, s => homeSlaughter animalId s
  | EngineOp.initiate animalId toUserId reqId now, s =>
      initiateTransfer animalId toUserId reqId now s
  | EngineOp.accept requestId now, s => acceptTransfer requestId now s
  | EngineOp.reject requestId, s => rejectTransfer requestId s
  | EngineOp.toButchery animalId fromId toId w now, s =>
      transferToButchery animalId fromId toId w now s
  | EngineOp.slaughterAtButchery record alertId now, s => logSlaughter record alertId now s

/-- A concrete request that has already been resolved (ACCEPTED). -/
def acceptedRequest : TransferRequest :=
  { id := "tr-0"
    animalId := "a1"
    fromUserId := "u1"
    toUserId := "u2"
    status := RequestStatus.ACCEPTED
    timestamp := "t0" }

/-- A concrete state holding the already-ACCEPTED request. -/
def resolvedState : AppState := { baseState with transferRequests := [acceptedRequest] }

/-- A concrete legacy-shaped record whose `photoUrl` is the empty string. -/
def legacyEmptyPhoto : Animal :=
  { baseAnimal with id := "a3", photoUrl := some "", photos := none }

/-! ### Helper lemmas -/

/-- Both branches of `reportStolen` perform the same status update. -/
theorem reportStolen_animals (animalId alertId now : String) (s : AppState) :
    (reportStolen animalId alertId now s).animals =
      s.animals.map fun a =>
        if a.id == animalId then { a with status := AnimalStatus.STOLEN } else a := by
  unfold reportStolen
  split <;> rfl

/-- With no logged-in user, `reportStolen` leaves the alerts untouched. -/
theorem reportStolen_alerts_of_noUser (animalId alertId now : String) (s : AppState)
    (h : s.currentUser = none) :
    (reportStolen animalId alertId now s).alerts = s.alerts := by
  unfold reportStolen
  split
  · next heq => rw [h] at heq; cases heq
  · rfl

/-- With a logged-in user and an existing animal, `reportStolen` prepends
the STOLEN alert. -/
theorem reportStolen_alerts_of_user (animalId alertId now : String) (s : AppState)
    (animal : Animal) (cu : User)
    (hf : s.animals.find? (fun a => a.id == animalId) = some animal)
    (hu : s.currentUser = some cu) :
    (reportStolen animalId alertId now s).alerts =
      { id := alertId
        type := AlertType.STOLEN
        animalId := animalId
        details := "STOLEN: " ++ animal.species ++ " (" ++ animal.serialNumber
          ++ ") from " ++ cu.location.village
        targetCounty := cu.location.county
        timestamp := now
        resolved := false } :: s.alerts := by
  unfold reportStolen
  split
  · next an cu2 h1 h2 =>
    rw [hf] at h1
    rw [hu] at h2
    cases h1
    cases h2
    rfl
  · next hne =>
    exact (hne animal cu hf hu).elim

/-- `logSlaughter` only changes the alert list when the fraud condition
holds, and then by prepending the single RED_ZONE alert. -/
theorem logSlaughter_alerts (record : ButcheryRecord) (alertId now : String) (s : AppState) :
    (logSlaughter record alertId now s).alerts =
      (if record.meatSold > record.deadWeight then
        [{ id := alertId
           type := AlertType.RED_ZONE
           animalId := record.animalId
           details := fraudDetails record
           targetCounty := "ALL"
           timestamp := now
           resolved := false }]
       else []) ++ s.alerts := by
  unfold logSlaughter
  split <;> rfl

/-- A `find?` over an appended list skips a first block on which the
predicate is everywhere false. -/
theorem find?_append_of_notFirst {α : Type} (p : α → Bool) (l₁ l₂ : List α)
    (h : ∀ x ∈ l₁, p x = false) :
    (l₁ ++ l₂).find? p = l₂.find? p := by
  rw [List.find?_append, List.find?_eq_none.mpr fun x hx => by simp [h x hx], Option.none_or]

/-- Updating the status of a member of the collection by id yields a
member of the mapped collection. -/
theorem mem_map_statusUpdate {l : List Animal} {b : Animal} (hb : b ∈ l) (st : AnimalStatus) :
    { b with status := st } ∈
      l.map fun a => if a.id == b.id then { a with status := st } else a := by
  have h := List.mem_map_of_mem (fun a => if a.id == b.id then { a with status := st } else a) hb
  simpa using h

/-- With a logged-in user, `initiateTransfer` appends the PENDING request
and sets the animal's status. -/
theorem initiateTransfer_of_user (animalId toUserId reqId now : String) (s : AppState)
    (cu : User) (hu : s.currentUser = some cu) :
    initiateTransfer animalId toUserId reqId now s =
      { s with
        transferRequests := s.transferRequests ++
          [{ id := reqId, animalId := animalId, fromUserId := cu.id, toUserId := toUserId
             status := RequestStatus.PENDING, timestamp := now }]
        animals := s.animals.map fun a =>
          if a.id == animalId then { a with status := AnimalStatus.PENDING_TRANSFER } else a } := by
  unfold initiateTransfer
  split
  · next h => rw [hu] at h; cases h
  · next cu2 h => rw [hu] at h; cases h; rfl

/-- `recoverAnimal` is idempotent: a second invocation changes nothing. -/
theorem recoverAnimal_idem (animalId : String) (s : AppState) :
    recoverAnimal animalId (recoverAnimal animalId s) = recoverAnimal animalId s := by
  unfold recoverAnimal
  simp only [List.map_map, AppState.mk.injEq, true_and, and_true]
  refine ⟨?_, ?_⟩
  · apply List.map_congr_left
    intro a _
    by_cases h : a.id = animalId <;> simp [h]
  · apply List.map_congr_left
    intro al _
    by_cases h1 : al.animalId = animalId <;> by_cases h2 : al.type = AlertType.STOLEN <;>
      simp [h1, h2]

/-- With no matching animal, `reportStolen` leaves the alerts untouched. -/
theorem reportStolen_alerts_of_noAnimal (animalId alertId now : String) (s : AppState)
    (hf : s.animals.find? (fun a => a.id == animalId) = none) :
    (reportStolen animalId alertId now s).alerts = s.alerts := by
  unfold reportStolen
  split
  · next h1 h2 => rw [hf] at h1; cases h1
  · rfl

/-- The animal collection after `recoverAnimal`, spelled out. -/
theorem recoverAnimal_animals (animalId : String) (s : AppState) :
    (recoverAnimal animalId s).animals =
      s.animals.map fun a =>
        if a.id == animalId then { a with status := AnimalStatus.ACTIVE } else a := rfl

/-- The alert collection after `recoverAnimal`, spelled out. -/
theorem recoverAnimal_alerts (animalId : String) (s : AppState) :
    (recoverAnimal animalId s).alerts =
      s.alerts.map fun al =>
        if al.animalId == animalId && al.type == AlertType.STOLEN then
          { al with resolved := true }
        else al := rfl

/-- When the request lookup succeeds, `acceptTransfer` spelled out. -/
theorem acceptTransfer_of_found (requestId now : String) (s : AppState)
    (request : TransferRequest)
    (hf : s.transferRequests.find? (fun r => r.id == requestId) = some request) :
    acceptTransfer requestId now s =
      { s with
        animals := s.animals.map fun a =>
          if a.id == request.animalId then
            { a with
              ownerId := request.toUserId
              status := AnimalStatus.SOLD
              transferHistory := a.transferHistory ++ [saleRecord request now] }
          else a
        transferRequests := s.transferRequests.map fun r =>
          if r.id == requestId then { r with status := RequestStatus.ACCEPTED } else r } := by
  unfold acceptTransfer
  split
  · next h => rw [hf] at h; cases h
  · next req h => rw [hf] at h; cases h; rfl

/-- When the request lookup succeeds, `rejectTransfer` spelled out. -/
theorem rejectTransfer_of_found (requestId : String) (s : AppState)
    (request : TransferRequest)
    (hf : s.transferRequests.find? (fun r => r.id == requestId) = some request) :
    rejectTransfer requestId s =
      { s with
        animals := s.animals.map fun a =>
          if a.id == request.animalId then { a with status := AnimalStatus.ACTIVE } else a
        transferRequests := s.transferRequests.map fun r =>
          if r.id == requestId then { r with status := RequestStatus.REJECTED } else r } := by
  unfold rejectTransfer
  split
  · next h => rw [hf] at h; cases h
  · next req h => rw [hf] at h; cases h; rfl

/-- After `initiateTransfer` with a fresh request id, the request lookup
finds exactly the newly created PENDING request. -/
theorem find?_after_initiate (s : AppState) (cu : User) (aid toUid reqId t1 : String)
    (hu : s.currentUser = some cu)
    (hfresh : ∀ r ∈ s.transferRequests, r.id ≠ reqId) :
    (initiateTransfer aid toUid reqId t1 s).transferRequests.find? (fun r => r.id == reqId)
      = some
        { id := reqId, animalId := aid, fromUserId := cu.id, toUserId := toUid
          status := RequestStatus.PENDING, timestamp := t1 } := by
  rw [initiateTransfer_of_user aid toUid reqId t1 s cu hu]
  show (s.transferRequests ++ [_]).find? _ = _
  rw [find?_append_of_notFirst _ _ _ fun r hr => by simp [hfresh r hr]]
  simp

/-- Requests untouched by a resolution map: mapping the status update over
a request list on which the id never occurs is the identity. -/
theorem map_requests_fresh (l : List TransferRequest) (reqId : String)
    (st : RequestStatus) (hfresh : ∀ r ∈ l, r.id ≠ reqId) :
    (l.map fun r => if r.id == reqId then { r with status := st } else r) = l := by
  have hcongr : ∀ r ∈ l,
      (fun r => if r.id == reqId then { r with status := st } else r) r = r := by
    intro r hr
    simp [hfresh r hr]
  rw [List.map_congr_left hcongr, List.map_id']

/-! ### Claim theorems -/

/-- C5. From an ACTIVE animal, `initiateTransfer` followed by
`acceptTransfer` of the created request reassigns the animal to the
request's destination, sets its status to SOLD, appends exactly one SALE
TransferRecord whose `fromUserId`/`toUserId` are the request's, and marks
the request ACCEPTED (all pre-existing requests untouched). -/
theorem initiate_then_accept (s : AppState) (cu : User) (aid toUid reqId t1 t2 : String)
    (hu : s.currentUser = some cu)
    (hfresh : ∀ r ∈ s.transferRequests, r.id ≠ reqId)
    (hact : ∀ b ∈ s.animals, b.id = aid → b.status = AnimalStatus.ACTIVE) :
    (acceptTransfer reqId t2 (initiateTransfer aid toUid reqId t1 s)).animals =
      (s.animals.map fun b =>
        if b.id == aid then
          { b with
            ownerId := toUid
            status := AnimalStatus.SOLD
            transferHistory := b.transferHistory ++
              [{ date := t2, fromUserId := cu.id, toUserId := toUid
                 type := TransferType.SALE, weight := none }] }
        else b) ∧
    (acceptTransfer reqId t2 (initiateTransfer aid toUid reqId t1 s)).transferRequests =
      s.transferRequests ++
        [{ id := reqId, animalId := aid, fromUserId := cu.id, toUserId := toUid
           status := RequestStatus.ACCEPTED, timestamp := t1 }] := by
  rw [acceptTransfer_of_found reqId t2 _ _ (find?_after_initiate s cu aid toUid reqId t1 hu hfresh)]
  rw [initiateTransfer_of_user aid toUid reqId t1 s cu hu]
  constructor
  · show (s.animals.map _).map _ = _
    rw [List.map_map]
    apply List.map_congr_left
    intro b _
    by_cases hid : b.id = aid
    · simp [hid, saleRecord]
    · simp [hid]
  · show (s.transferRequests ++ [_]).map _ = _
    rw [List.map_append, map_requests_fresh s.transferRequests reqId RequestStatus.ACCEPTED hfresh]
    simp

/-- Witness for C5 on the demo state. -/
theorem initiate_then_accept_witness :
    (acceptTransfer "tr-1" "t2" (initiateTransfer "a1" "u2" "tr-1" "t1" baseState)).animals =
      (baseState.animals.map fun b =>
        if b.id == "a1" then
          { b with
            ownerId := "u2"
            status := AnimalStatus.SOLD
            transferHistory := b.transferHistory ++
              [{ date := "t2", fromUserId := baseUser.id, toUserId := "u2"
                 type := TransferType.SALE, weight := none }] }
        else b) ∧
    (acceptTransfer "tr-1" "t2" (initiateTransfer "a1" "u2" "tr-1" "t1" baseState)).transferRequests =
      baseState.transferRequests ++
        [{ id := "tr-1", animalId := "a1", fromUserId := baseUser.id, toUserId := "u2"
           status := RequestStatus.ACCEPTED, timestamp := "t1" }] :=
  initiate_then_accept baseState baseUser "a1" "u2" "tr-1" "t1" "t2" rfl (by decide) (by decide)

/-- C6. From an ACTIVE animal, `initiateTransfer` followed by
`rejectTransfer` of the created request restores the animal collection
exactly: owner unchanged, status back to ACTIVE, no TransferRecord
appended; the created request is marked REJECTED. -/
theorem initiate_then_reject (s : AppState) (cu : User) (aid toUid reqId t1 : String)
    (hu : s.currentUser = some cu)
    (hfresh : ∀ r ∈ s.transferRequests, r.id ≠ reqId)
    (hact : ∀ b ∈ s.animals, b.id = aid → b.status = AnimalStatus.ACTIVE) :
    (rejectTransfer reqId (initiateTransfer aid toUid reqId t1 s)).animals = s.animals ∧
    (rejectTransfer reqId (initiateTransfer aid toUid reqId t1 s)).transferRequests =
      s.transferRequests ++
        [{ id := reqId, animalId := aid, fromUserId := cu.id, toUserId := toUid
           status := RequestStatus.REJECTED, timestamp := t1 }] := by
  rw [rejectTransfer_of_found reqId _ _ (find?_after_initiate s cu aid toUid reqId t1 hu hfresh)]
  rw [initiateTransfer_of_user aid toUid reqId t1 s cu hu]
  constructor
  · show (s.animals.map _).map _ = _
    rw [List.map_map]
    have hcongr : ∀ b ∈ s.animals,
        ((fun a => if a.id == aid then { a with status := AnimalStatus.ACTIVE } else a) ∘
          fun a =>
            if a.id == aid then { a with status := AnimalStatus.PENDING_TRANSFER } else a) b
          = b := by
      intro b hb
      by_cases hid : b.id = aid
      · have hst := hact b hb hid
        simp [hid]
        rw [← hid, ← hst]
      · simp [hid]
    rw [List.map_congr_left hcongr, List.map_id']
  · show (s.transferRequests ++ [_]).map _ = _
    rw [List.map_append, map_requests_fresh s.transferRequests reqId RequestStatus.REJECTED hfresh]
    simp

/-- Both branches of `logSlaughter` perform the same status update on the
animal collection. -/
theorem logSlaughter_animals (record : ButcheryRecord) (alertId now : String) (s : AppState) :
    (logSlaughter record alertId now s).animals =
      s.animals.map fun a =>
        if a.id == record.animalId then { a with status := AnimalStatus.SLAUGHTERED } else a := by
  unfold logSlaughter
  split <;> rfl

/-- With nobody logged in, `initiateTransfer` is a no-op. -/
theorem initiateTransfer_of_noUser (animalId toUserId reqId now : String) (s : AppState)
    (h : s.currentUser = none) :
    initiateTransfer animalId toUserId reqId now s = s := by
  unfold initiateTransfer
  split
  · rfl
  · next cu hcu => rw [h] at hcu; cases hcu

/-- With no matching request, `acceptTransfer` is a no-op. -/
theorem acceptTransfer_of_notFound (requestId now : String) (s : AppState)
    (h : s.transferRequests.find? (fun r => r.id == requestId) = none) :
    acceptTransfer requestId now s = s := by
  unfold acceptTransfer
  split
  · rfl
  · next req hreq => rw [h] at hreq; cases hreq

/-- With no matching request, `rejectTransfer` is a no-op. -/
theorem rejectTransfer_of_notFound (requestId : String) (s : AppState)
    (h : s.transferRequests.find? (fun r => r.id == requestId) = none) :
    rejectTransfer requestId s = s := by
  unfold rejectTransfer
  split
  · rfl
  · next req hreq => rw [h] at hreq; cases hreq

/-- Element-wise history growth lifts through `List.map` to index-wise
prefix preservation. -/
theorem get?_map_historyPrefix (l : List Animal) (f : Animal → Animal)
    (hf : ∀ a, a.transferHistory <+: (f a).transferHistory)
    (i : Nat) (a : Animal) (ha : l.get? i = some a) :
    ∃ b, (l.map f).get? i = some b ∧ a.transferHistory <+: b.transferHistory := by
  refine ⟨f a, ?_, hf a⟩
  rw [List.get?_map, ha]
  rfl

/-- A status-only update never shrinks any animal's history. -/
theorem statusUpdate_historyPrefix (animalId : String) (st : AnimalStatus) :
    ∀ a : Animal, a.transferHistory <+:
      ((fun a => if a.id == animalId then { a with status := st } else a) a).transferHistory := by
  intro a
  by_cases h : a.id = animalId <;> simp [h]

/-- C8. `transferHistory` is monotonically append-only: across every
Transition Engine operation, the record list an animal holds before the
operation is a prefix of the list the animal at the same position holds
after it — no TransferRecord is ever edited or removed. -/
theorem transferHistory_appendOnly (op : EngineOp) (s : AppState) (i : Nat)
    (a : Animal) (ha : s.animals.get? i = some a) :
    ∃ b, (applyOp op s).animals.get? i = some b ∧
      a.transferHistory <+: b.transferHistory := by
  cases op with
  | register newAnimal =>
      refine ⟨a, ?_, List.prefix_rfl⟩
      have hlen : i < s.animals.length := by
        rcases List.get?_eq_some.mp ha with ⟨h, _⟩
        exact h
      show (s.animals ++ [newAnimal]).get? i = some a
      rw [List.get?_append hlen]
      exact ha
  | stolen animalId alertId now =>
      simp only [applyOp]
      rw [reportStolen_animals]
      exact get?_map_historyPrefix _ _
        (statusUpdate_historyPrefix animalId AnimalStatus.STOLEN) i a ha
  | recover animalId =>
      exact get?_map_historyPrefix _ _
        (statusUpdate_historyPrefix animalId AnimalStatus.ACTIVE) i a ha
  | dead animalId =>
      exact get?_map_historyPrefix _ _
        (statusUpdate_historyPrefix animalId AnimalStatus.DEAD) i a ha
  | slaughterAtHome animalId =>
      exact get?_map_historyPrefix _ _
        (statusUpdate_historyPrefix animalId AnimalStatus.SLAUGHTERED) i a ha
  | initiate animalId toUserId reqId now =>
      simp only [applyOp]
      rcases hcu : s.currentUser with _ | cu
      · rw [initiateTransfer_of_noUser animalId toUserId reqId now s hcu]
        exact ⟨a, ha, List.prefix_rfl⟩
      · rw [initiateTransfer_of_user animalId toUserId reqId now s cu hcu]
        exact get?_map_historyPrefix _ _
          (statusUpdate_historyPrefix animalId AnimalStatus.PENDING_TRANSFER) i a ha
  | accept requestId now =>
      simp only [applyOp]
      rcases hf : s.transferRequests.find? (fun r => r.id == requestId) with _ | request
      · rw [acceptTransfer_of_notFound requestId now s hf]
        exact ⟨a, ha, List.prefix_rfl⟩
      · rw [acceptTransfer_of_found requestId now s request hf]
        refine get?_map_historyPrefix _ _ ?_ i a ha
        intro x
        by_cases h : x.id = request.animalId <;> simp [h]
  | reject requestId =>
      simp only [applyOp]
      rcases hf : s.transferRequests.find? (fun r => r.id == requestId) with _ | request
      · rw [rejectTransfer_of_notFound requestId s hf]
        exact ⟨a, ha, List.prefix_rfl⟩
      · rw [rejectTransfer_of_found requestId s request hf]
        exact get?_map_historyPrefix _ _
          (statusUpdate_historyPrefix request.animalId AnimalStatus.ACTIVE) i a ha
  | toButchery animalId fromId toId w now =>
      refine get?_map_historyPrefix _ _ ?_ i a ha
      intro x
      by_cases h : x.id = animalId <;> simp [h]
  | slaughterAtButchery record alertId now =>
      simp only [applyOp]
      rw [logSlaughter_animals]
      exact get?_map_historyPrefix _ _
        (statusUpdate_historyPrefix record.animalId AnimalStatus.SLAUGHTERED) i a ha

/-- Witness for C8: accepting the resolved demo request appends to the
demo animal's history. -/
theorem transferHistory_appendOnly_witness :
    ∃ b, (applyOp (EngineOp.accept "tr-0" "t3") resolvedState).animals.get? 0 = some b ∧
      baseAnimal.transferHistory <+: b.transferHistory :=
  transferHistory_appendOnly (EngineOp.accept "tr-0" "t3") resolvedState 0 baseAnimal rfl

/-- C7 counterexample. Re-invoking `acceptTransfer` on a request already
in state ACCEPTED changes the animal: the demo animal's transfer history
grows from zero to one SALE record, so resolved requests are not
protected from re-resolution. -/
theorem requestReResolution_counterexample :
    acceptedRequest.status = RequestStatus.ACCEPTED ∧
    (resolvedState.animals.map fun a => a.transferHistory.length) = [0] ∧
    ((acceptTransfer "tr-0" "t3" resolvedState).animals.map
      fun a => a.transferHistory.length) = [1] ∧
    (acceptTransfer "tr-0" "t3" resolvedState).animals ≠ resolvedState.animals := by
  decide

/-- C7 (amended). `acceptTransfer` and `rejectTransfer` only require that
a request with the given id exists; the request's status is never
checked, so on a request already ACCEPTED or REJECTED, `acceptTransfer`
re-applies the ownership change and appends another SALE record, and
`rejectTransfer` re-sets the animal's status to ACTIVE. -/
theorem resolvedRequests_not_guarded (s : AppState) (requestId now : String)
    (request : TransferRequest)
    (hf : s.transferRequests.find? (fun r => r.id == requestId) = some request)
    (hres : request.status ≠ RequestStatus.PENDING) :
    (acceptTransfer requestId now s).animals =
      (s.animals.map fun a =>
        if a.id == request.animalId then
          { a with
            ownerId := request.toUserId
            status := AnimalStatus.SOLD
            transferHistory := a.transferHistory ++ [saleRecord request now] }
        else a) ∧
    (rejectTransfer requestId s).animals =
      (s.animals.map fun a =>
        if a.id == request.animalId then { a with status := AnimalStatus.ACTIVE } else a) ∧
    (∀ b ∈ s.animals, b.id = request.animalId →
      { b with
        ownerId := request.toUserId
        status := AnimalStatus.SOLD
        transferHistory := b.transferHistory ++ [saleRecord request now] }
        ∈ (acceptTransfer requestId now s).animals) := by
  rw [acceptTransfer_of_found requestId now s request hf,
    rejectTransfer_of_found requestId s request hf]
  refine ⟨rfl, rfl, ?_⟩
  intro b hb hid
  have h := List.mem_map_of_mem
    (fun a =>
      if a.id == request.animalId then
        { a with
          ownerId := request.toUserId
          status := AnimalStatus.SOLD
          transferHistory := a.transferHistory ++ [saleRecord request now] }
      else a) hb
  simpa [hid] using h

/-- Witness for the amended C7 at the concrete resolved request. -/
theorem resolvedRequests_not_guarded_witness :
    (acceptTransfer "tr-0" "t3" resolvedState).animals =
      (resolvedState.animals.map fun a =>
        if a.id == acceptedRequest.animalId then
          { a with
            ownerId := acceptedRequest.toUserId
            status := AnimalStatus.SOLD
            transferHistory := a.transferHistory ++ [saleRecord acceptedRequest "t3"] }
        else a) ∧
    (rejectTransfer "tr-0" resolvedState).animals =
      (resolvedState.animals.map fun a =>
        if a.id == acceptedRequest.animalId then { a with status := AnimalStatus.ACTIVE }
        else a) ∧
    (∀ b ∈ resolvedState.animals, b.id = acceptedRequest.animalId →
      { b with
        ownerId := acceptedRequest.toUserId
        status := AnimalStatus.SOLD
        transferHistory := b.transferHistory ++ [saleRecord acceptedRequest "t3"] }
        ∈ (acceptTransfer "tr-0" "t3" resolvedState).animals) :=
  resolvedRequests_not_guarded resolvedState "tr-0" "t3" acceptedRequest rfl (by decide)

/-- C9 counterexample. A legacy record (no `photos` object, a `photoUrl`
field holding the empty string) is migrated to a `photos` object whose
`left` entry is the placeholder URL, not the record's `photoUrl`: the
original image value is not preserved verbatim. -/
theorem migration_counterexample :
    legacyEmptyPhoto.photos = none ∧
    legacyEmptyPhoto.photoUrl = some "" ∧
    ((loadAnimals [legacyEmptyPhoto]).map fun a => a.photos.map fun p => p.left)
      = [some placeholderUrl] ∧
    ((loadAnimals [legacyEmptyPhoto]).map fun a => a.photos.map fun p => p.left)
      ≠ [legacyEmptyPhoto.photoUrl] := by
  decide

/-- C9 (amended). Loading the animals collection migrates each record
individually: a record already carrying a `photos` object is returned
unchanged, and a legacy record (no `photos` object) whose `photoUrl` is a
non-empty string gains a `photos` object whose `left` entry equals that
`photoUrl` (an absent or empty `photoUrl` is replaced by a placeholder
URL), with the `photoUrl` field cleared. -/
theorem loadAnimals_migration (l : List Animal) (a : Animal) (ha : a ∈ l) :
    migrateAnimal a ∈ loadAnimals l ∧
    (∀ p, a.photos = some p → migrateAnimal a = a) ∧
    (a.photos = none → ∀ u, a.photoUrl = some u → u ≠ "" →
      ∃ p, (migrateAnimal a).photos = some p ∧ p.left = u ∧ p.right = placeholderUrl ∧
        p.front = placeholderUrl ∧ (migrateAnimal a).photoUrl = none ∧
        (migrateAnimal a).id = a.id ∧
        (migrateAnimal a).transferHistory = a.transferHistory) := by
  refine ⟨List.mem_map_of_mem migrateAnimal ha, ?_, ?_⟩
  · intro p hp
    unfold migrateAnimal
    rw [hp]
  · intro h0 u hu hne
    have hbe : (u == "") = false := by simpa using hne
    refine ⟨{ front := placeholderUrl, left := u, right := placeholderUrl },
      ?_, rfl, rfl, rfl, ?_, ?_, ?_⟩ <;>
      simp [migrateAnimal, h0, hu, hbe]

/-- Witness for the amended C9: a legacy record with a non-empty
`photoUrl` keeps its image in the `left` slot; the already-migrated demo
record passes through unchanged. -/
theorem loadAnimals_migration_witness :
    migrateAnimal { baseAnimal with photoUrl := some "https://farm.example/cow.jpg" }
      ∈ loadAnimals [{ baseAnimal with photoUrl := some "https://farm.example/cow.jpg" }] ∧
    (∀ p, ({ baseAnimal with photoUrl := some "https://farm.example/cow.jpg" } : Animal).photos
        = some p →
      migrateAnimal { baseAnimal with photoUrl := some "https://farm.example/cow.jpg" }
        = { baseAnimal with photoUrl := some "https://farm.example/cow.jpg" }) ∧
    (({ baseAnimal with photoUrl := some "https://farm.example/cow.jpg" } : Animal).photos = none →
      ∀ u, ({ baseAnimal with photoUrl := some "https://farm.example/cow.jpg" } : Animal).photoUrl
        = some u → u ≠ "" →
      ∃ p,
        (migrateAnimal { baseAnimal with photoUrl := some "https://farm.example/cow.jpg" }).photos
          = some p ∧
        p.left = u ∧ p.right = placeholderUrl ∧ p.front = placeholderUrl ∧
        (migrateAnimal
          { baseAnimal with photoUrl := some "https://farm.example/cow.jpg" }).photoUrl = none ∧
        (migrateAnimal { baseAnimal with photoUrl := some "https://farm.example/cow.jpg" }).id
          = ({ baseAnimal with photoUrl := some "https://farm.example/cow.jpg" } : Animal).id ∧
        (migrateAnimal
            { baseAnimal with photoUrl := some "https://farm.example/cow.jpg" }).transferHistory
          = ({ baseAnimal with
                photoUrl := some "https://farm.example/cow.jpg" } : Animal).transferHistory) :=
  loadAnimals_migration [{ baseAnimal with photoUrl := some "https://farm.example/cow.jpg" }]
    { baseAnimal with photoUrl := some "https://farm.example/cow.jpg" } (by decide)

/-- Witness for C6 on the demo state. -/
theorem initiate_then_reject_witness :
    (rejectTransfer "tr-1" (initiateTransfer "a1" "u2" "tr-1" "t1" baseState)).animals
      = baseState.animals ∧
    (rejectTransfer "tr-1" (initiateTransfer "a1" "u2" "tr-1" "t1" baseState)).transferRequests =
      baseState.transferRequests ++
        [{ id := "tr-1", animalId := "a1", fromUserId := baseUser.id, toUserId := "u2"
           status := RequestStatus.REJECTED, timestamp := "t1" }] :=
  initiate_then_reject baseState baseUser "a1" "u2" "tr-1" "t1" rfl (by decide) (by decide)

/-- C4. For an animal whose status is ACTIVE, `reportStolen` followed by
`recoverAnimal` restores the animal collection exactly (status back to
ACTIVE, nothing else changed), and the surviving alerts are the old ones
with `resolved := true` set precisely on the STOLEN alerts of that animal
(alerts of other animals and RED_ZONE alerts pass through unchanged),
possibly preceded by the alert the report itself emitted. -/
theorem reportStolen_recover_roundTrip (s : AppState) (aid alertId now : String)
    (h : ∀ b ∈ s.animals, b.id = aid → b.status = AnimalStatus.ACTIVE) :
    (recoverAnimal aid (reportStolen aid alertId now s)).animals = s.animals ∧
    ∃ pre, (recoverAnimal aid (reportStolen aid alertId now s)).alerts =
      pre ++ s.alerts.map fun al =>
        if al.animalId == aid && al.type == AlertType.STOLEN then
          { al with resolved := true }
        else al := by
  constructor
  · rw [recoverAnimal_animals, reportStolen_animals, List.map_map]
    have hcongr : ∀ b ∈ s.animals,
        ((fun a => if a.id == aid then { a with status := AnimalStatus.ACTIVE } else a) ∘
          fun a => if a.id == aid then { a with status := AnimalStatus.STOLEN } else a) b = b := by
      intro b hb
      by_cases hid : b.id = aid
      · have hst := h b hb hid
        simp [hid]
        rw [← hid, ← hst]
      · simp [hid]
    rw [List.map_congr_left hcongr, List.map_id']
  · rw [recoverAnimal_alerts]
    rcases hcu : s.currentUser with _ | cu
    · refine ⟨[], ?_⟩
      rw [reportStolen_alerts_of_noUser aid alertId now s hcu, List.nil_append]
    · rcases hf : s.animals.find? (fun a => a.id == aid) with _ | animal
      · refine ⟨[], ?_⟩
        rw [reportStolen_alerts_of_noAnimal aid alertId now s hf, List.nil_append]
      · refine ⟨[{ id := alertId
                   type := AlertType.STOLEN
                   animalId := aid
                   details := "STOLEN: " ++ animal.species ++ " (" ++ animal.serialNumber
                     ++ ") from " ++ cu.location.village
                   targetCounty := cu.location.county
                   timestamp := now
                   resolved := true }], ?_⟩
        rw [reportStolen_alerts_of_user aid alertId now s animal cu hf hcu, List.map_cons]
        simp

/-- Witness for C4 at a concrete state holding an ACTIVE animal and a
pre-existing alert about a different animal. -/
theorem reportStolen_recover_roundTrip_witness :
    (recoverAnimal "a1" (reportStolen "a1" "al1" "t1" withAlertState)).animals
      = withAlertState.animals ∧
    ∃ pre, (recoverAnimal "a1" (reportStolen "a1" "al1" "t1" withAlertState)).alerts =
      pre ++ withAlertState.alerts.map fun al =>
        if al.animalId == "a1" && al.type == AlertType.STOLEN then
          { al with resolved := true }
        else al :=
  reportStolen_recover_roundTrip withAlertState "a1" "al1" "t1" (by decide)

/-- C1 counterexample. `reportStolen` on an animal whose status is DEAD
(hence not ACTIVE) does not fail and does not leave the record unchanged:
the status becomes STOLEN.  Likewise `recoverAnimal` on that animal,
whose status is not STOLEN, does not fail: the status becomes ACTIVE. -/
theorem statusGuards_counterexample :
    deadAnimal.status = AnimalStatus.DEAD ∧
    (reportStolen "a2" "al1" "t1" deadState).animals
      = [{ deadAnimal with status := AnimalStatus.STOLEN }] ∧
    (recoverAnimal "a2" deadState).animals
      = [{ deadAnimal with status := AnimalStatus.ACTIVE }] := by
  decide

/-- C1 (amended). The engine enforces no status preconditions: for an
animal in the collection with any non-ACTIVE status, `reportStolen`,
`markDead`, `homeSlaughter` still set their target status, so does
`initiateTransfer` whenever a user is logged in, and `recoverAnimal`
still sets ACTIVE even though the status is not STOLEN — a second
`recoverAnimal` call also succeeds, changing nothing further. -/
theorem engine_enforces_no_status_guards (s : AppState) (b : Animal) (u : User)
    (alertId now toUserId reqId : String)
    (hb : b ∈ s.animals) (hst : b.status ≠ AnimalStatus.ACTIVE)
    (hu : s.currentUser = some u) :
    { b with status := AnimalStatus.STOLEN } ∈ (reportStolen b.id alertId now s).animals ∧
    { b with status := AnimalStatus.DEAD } ∈ (markDead b.id s).animals ∧
    { b with status := AnimalStatus.SLAUGHTERED } ∈ (homeSlaughter b.id s).animals ∧
    { b with status := AnimalStatus.PENDING_TRANSFER }
      ∈ (initiateTransfer b.id toUserId reqId now s).animals ∧
    { b with status := AnimalStatus.ACTIVE } ∈ (recoverAnimal b.id s).animals ∧
    recoverAnimal b.id (recoverAnimal b.id s) = recoverAnimal b.id s := by
  refine ⟨?_, ?_, ?_, ?_, ?_, recoverAnimal_idem b.id s⟩
  · rw [reportStolen_animals]
    exact mem_map_statusUpdate hb _
  · exact mem_map_statusUpdate hb _
  · exact mem_map_statusUpdate hb _
  · rw [initiateTransfer_of_user b.id toUserId reqId now s u hu]
    exact mem_map_statusUpdate hb _
  · exact mem_map_statusUpdate hb _

/-- Witness for the amended C1 at the concrete DEAD animal. -/
theorem engine_enforces_no_status_guards_witness :
    { deadAnimal with status := AnimalStatus.STOLEN }
      ∈ (reportStolen deadAnimal.id "al1" "t1" deadState).animals ∧
    { deadAnimal with status := AnimalStatus.DEAD }
      ∈ (markDead deadAnimal.id deadState).animals ∧
    { deadAnimal with status := AnimalStatus.SLAUGHTERED }
      ∈ (homeSlaughter deadAnimal.id deadState).animals ∧
    { deadAnimal with status := AnimalStatus.PENDING_TRANSFER }
      ∈ (initiateTransfer deadAnimal.id "u9" "tr-1" "t1" deadState).animals ∧
    { deadAnimal with status := AnimalStatus.ACTIVE }
      ∈ (recoverAnimal deadAnimal.id deadState).animals ∧
    recoverAnimal deadAnimal.id (recoverAnimal deadAnimal.id deadState)
      = recoverAnimal deadAnimal.id deadState :=
  engine_enforces_no_status_guards deadState deadAnimal baseUser "al1" "t1" "u9" "tr-1"
    (by decide) (by decide) rfl

/-- C2 counterexample. With an ACTIVE animal in the collection but no
logged-in user, `reportStolen` changes the status to STOLEN yet emits no
alert: the operation is not atomic in its derived records. -/
theorem reportStolen_atomicity_counterexample :
    baseAnimal.status = AnimalStatus.ACTIVE ∧
    noUserState.alerts = [] ∧
    (reportStolen "a1" "al1" "t1" noUserState).animals
      = [{ baseAnimal with status := AnimalStatus.STOLEN }] ∧
    (reportStolen "a1" "al1" "t1" noUserState).alerts = [] := by
  decide

/-- C2 (amended). `reportStolen` always applies the status update; the
STOLEN alert (scoped to the reporter's county, unresolved) is emitted
together with it exactly when the animal is found and a user is logged
in — with no logged-in user the status still changes but no alert is
emitted. -/
theorem reportStolen_atomic_only_when_loggedIn (s : AppState) (animalId alertId now : String) :
    ((reportStolen animalId alertId now s).animals =
      s.animals.map fun a =>
        if a.id == animalId then { a with status := AnimalStatus.STOLEN } else a) ∧
    (∀ animal cu, s.animals.find? (fun a => a.id == animalId) = some animal →
      s.currentUser = some cu →
      (reportStolen animalId alertId now s).alerts =
        { id := alertId
          type := AlertType.STOLEN
          animalId := animalId
          details := "STOLEN: " ++ animal.species ++ " (" ++ animal.serialNumber
            ++ ") from " ++ cu.location.village
          targetCounty := cu.location.county
          timestamp := now
          resolved := false } :: s.alerts) ∧
    (s.currentUser = none → (reportStolen animalId alertId now s).alerts = s.alerts) := by
  refine ⟨reportStolen_animals animalId alertId now s, ?_, ?_⟩
  · intro animal cu hf hu
    exact reportStolen_alerts_of_user animalId alertId now s animal cu hf hu
  · intro h
    exact reportStolen_alerts_of_noUser animalId alertId now s h

/-- Witness for the amended C2: with the demo user logged in the alert is
emitted, with nobody logged in it is not. -/
theorem reportStolen_atomic_only_when_loggedIn_witness :
    ((reportStolen "a1" "al1" "t1" baseState).alerts =
      { id := "al1"
        type := AlertType.STOLEN
        animalId := "a1"
        details := "STOLEN: " ++ baseAnimal.species ++ " (" ++ baseAnimal.serialNumber
          ++ ") from " ++ baseUser.location.village
        targetCounty := baseUser.location.county
        timestamp := "t1"
        resolved := false } :: baseState.alerts) ∧
    (reportStolen "a1" "al1" "t1" noUserState).alerts = noUserState.alerts :=
  ⟨(reportStolen_atomic_only_when_loggedIn baseState "a1" "al1" "t1").2.1
      baseAnimal baseUser rfl rfl,
   (reportStolen_atomic_only_when_loggedIn noUserState "a1" "al1" "t1").2.2 rfl⟩

/-- C3. The fraud heuristic of `logSlaughter` emits exactly one RED_ZONE
alert (scope "ALL", unresolved, detail naming butchery id and both
weights) precisely when `meatSold > deadWeight`, independently of every
previously stored record; in particular `meatSold = 120, deadWeight = 100`
emits exactly one alert and `meatSold = 80, deadWeight = 100` emits none. -/
theorem logSlaughter_redZone_iff_overSold (s : AppState) (record : ButcheryRecord)
    (alertId now : String) :
    ((logSlaughter record alertId now s).alerts =
      (if record.meatSold > record.deadWeight then
        [{ id := alertId
           type := AlertType.RED_ZONE
           animalId := record.animalId
           details := fraudDetails record
           targetCounty := "ALL"
           timestamp := now
           resolved := false }]
       else []) ++ s.alerts) ∧
    (logSlaughter
      { id := "b1", animalId := "a9", butcheryId := "but1", liveWeight := 200
        deadWeight := 100, meatSold := 120, date := now } alertId now s).alerts.length
      = s.alerts.length + 1 ∧
    (logSlaughter
      { id := "b2", animalId := "a9", butcheryId := "but1", liveWeight := 200
        deadWeight := 100, meatSold := 80, date := now } alertId now s).alerts = s.alerts := by
  refine ⟨logSlaughter_alerts record alertId now s, ?_, ?_⟩
  · rw [logSlaughter_alerts]
    norm_num
  · rw [logSlaughter_alerts]
    norm_num

/-- C10. Biometric lookup is not faithful to the queried hash: whenever
the collection holds an animal with the hard-coded id `'a1'`,
`findAnimalByHash` returns some animal for every query, and a successful
lookup does not imply the returned animal carries the queried hash. -/
theorem findAnimalByHash_not_faithful (hash : String) (s : AppState)
    (h : ∃ a ∈ s.animals, a.id = "a1") :
    (findAnimalByHash hash s).isSome ∧
    ∃ (s2 : AppState) (h2 : String) (b : Animal),
      findAnimalByHash h2 s2 = some b ∧ b.biometricHash ≠ some h2 := by
  constructor
  · rw [findAnimalByHash, List.find?_isSome]
    obtain ⟨a, ha, hid⟩ := h
    exact ⟨a, ha, by simp [hid]⟩
  · exact ⟨baseState, "UNKNOWN-HASH", baseAnimal, by decide, by decide⟩

/-- Witness for C10 at a concrete state containing the demo animal. -/
theorem findAnimalByHash_not_faithful_witness :
    (findAnimalByHash "SOME-OTHER-HASH" baseState).isSome ∧
    ∃ (s2 : AppState) (h2 : String) (b : Animal),
      findAnimalByHash h2 s2 = some b ∧ b.biometricHash ≠ some h2 :=
  findAnimalByHash_not_faithful "SOME-OTHER-HASH" baseState ⟨baseAnimal, by decide, rfl⟩

end VAT
